import Mathlib

/-!
Verification of the SVD animation tools.

The repository's computational core is `SVDAnimator.current_transform` in
`tools/generate_svd_animation.py`: a phase-interpolation stepper that, given a
frame index, produces the cumulative 2x2 transform for that frame from the
three SVD phase matrices (V^T, Σ, U).  The two CLI tools
(`generate_svd_animation.py` and `svd_animation_asset.py`) are modelled by
their control flow over explicit results (exit code, stdout lines, stderr
lines), with external library calls (matplotlib writers, base85, LZMA,
the filesystem) abstracted as parameters.

All matrix arithmetic is over ℚ: the Python code uses floats, but every claim
below is either exact at the rational level (alpha values 0 and 1, identity
blends) or a structural statement about the algorithm, so the rational
embedding is faithful to the claims.
-/

/-- A 2x2 matrix with entries `a b / c d`, mirroring the 2x2 `np.ndarray`s
used throughout `generate_svd_animation.py`. -/
structure Mat2 where
  a : ℚ
  b : ℚ
  c : ℚ
  d : ℚ
  deriving DecidableEq, Repr

namespace Mat2

/-- `np.eye(2)`. -/
def eye : Mat2 := ⟨1, 0, 0, 1⟩

/-- Matrix product, `x @ y`. -/
def mul (x y : Mat2) : Mat2 :=
  ⟨x.a * y.a + x.b * y.c, x.a * y.b + x.b * y.d,
   x.c * y.a + x.d * y.c, x.c * y.b + x.d * y.d⟩

/-- Entrywise sum, `x + y`. -/
def add (x y : Mat2) : Mat2 :=
  ⟨x.a + y.a, x.b + y.b, x.c + y.c, x.d + y.d⟩

/-- Scalar multiple, `q * x`. -/
def smul (q : ℚ) (x : Mat2) : Mat2 :=
  ⟨q * x.a, q * x.b, q * x.c, q * x.d⟩

/-- `x.T`. -/
def transpose (x : Mat2) : Mat2 :=
  ⟨x.a, x.c, x.b, x.d⟩

/-- `np.diag(singular_values)` for the two singular values. -/
def diag (s1 s2 : ℚ) : Mat2 :=
  ⟨s1, 0, 0, s2⟩

end Mat2

/-- `interpolate(current, target, alpha)`
(`generate_svd_animation.py`, line 90-91):
`current @ ((1 - alpha) * np.eye(2) + alpha * target)`. -/
def interpolate (current target : Mat2) (alpha : ℚ) : Mat2 :=
  current.mul ((Mat2.smul (1 - alpha) Mat2.eye).add (Mat2.smul alpha target))

/-- The fields of `SVDAnimator` that the stepper reads
(`matrix`, `total_frames`, `phases`, `frames_per_phase`); the plotting
artists are irrelevant to every claim and are omitted. -/
structure AnimState where
  matrix : Mat2
  total_frames : ℕ
  phases : List (String × Mat2)
  frames_per_phase : ℕ
  deriving DecidableEq, Repr

/-- `SVDAnimator.__init__` (lines 95-112), restricted to the stepper-relevant
fields.  The external call `np.linalg.svd(matrix)` is modelled by taking the
factors `u`, the singular values `s1, s2`, and `vt` as inputs; the phase list
and `frames_per_phase = max(1, math.ceil(total_frames / len(self.phases)))`
are built exactly as in the source (`⌈T/3⌉ = (T + 2) / 3` in ℕ). -/
def SVDAnimator.init (matrix : Mat2) (total_frames : ℕ)
    (u : Mat2) (s1 s2 : ℚ) (vt : Mat2) : AnimState :=
  { matrix := matrix
    total_frames := total_frames
    phases := [("Apply $V^T$", vt), ("Scale by $Σ$", Mat2.diag s1 s2),
               ("Rotate with $U$", u)]
    frames_per_phase := max 1 ((total_frames + 2) / 3) }

/-- Line 167: `phase_index = min(frame // self.frames_per_phase, len(self.phases) - 1)`. -/
def AnimState.phase_index (s : AnimState) (frame : ℕ) : ℕ :=
  min (frame / s.frames_per_phase) (s.phases.length - 1)

/-- Lines 168-170: `alpha = (frame % self.frames_per_phase) / self.frames_per_phase`,
overridden to `1.0` when `frame == self.total_frames - 1`. -/
def AnimState.alpha (s : AnimState) (frame : ℕ) : ℚ :=
  if frame = s.total_frames - 1 then 1
  else ((frame % s.frames_per_phase : ℕ) : ℚ) / (s.frames_per_phase : ℚ)

/-- Lines 171-177: the `for index, (label, matrix) in enumerate(self.phases)`
loop.  Phases with `index < phase_index` are multiplied in on the right; at
`index == phase_index` the blend is applied and the loop breaks; later
indices (unreachable in practice) leave the accumulator unchanged, as the
loop body has no branch for them. -/
def phaseLoop : List (String × Mat2) → ℕ → ℕ → ℚ → Mat2 → Mat2
  | [], _, _, _, t => t
  | (_, m) :: rest, idx, pi, alpha, t =>
    if idx < pi then phaseLoop rest (idx + 1) pi alpha (t.mul m)
    else if idx = pi then interpolate t m alpha
    else phaseLoop rest (idx + 1) pi alpha t

/-- `SVDAnimator.current_transform` (lines 166-180).  The method assigns to
no field of `self`, so it is a function of the state; we return the
(unchanged) state alongside the `(transform, label)` pair to make that
explicit.  The label is `self.phases[phase_index][0]`; `phase_index` is
always in range, so the `getD` default is never used. -/
def current_transform (s : AnimState) (frame : ℕ) :
    AnimState × Mat2 × String :=
  let pi := s.phase_index frame
  let alpha := s.alpha frame
  let transform := phaseLoop s.phases 0 pi alpha Mat2.eye
  (s, transform, (s.phases.getD pi ("", Mat2.eye)).1)

/-- The stepper contract as the specification words it: with
`F = ceil(total_frames / 3)`, `phase_index = min(f div F, 2)` and
`alpha = (f mod F) / F` (forced to `1` at the final frame), the output is the
product of the phase matrices with index below `phase_index`, in increasing
index order, right-multiplied by the blend
`(1 - alpha)·I + alpha·(phase matrix at phase_index)`. -/
def specTransform (vt sig u : Mat2) (total_frames f : ℕ) : Mat2 :=
  let F := (total_frames + 2) / 3
  let pi := min (f / F) 2
  let alpha : ℚ :=
    if f = total_frames - 1 then 1 else ((f % F : ℕ) : ℚ) / (F : ℚ)
  let mats := [vt, sig, u]
  ((mats.take pi).foldl Mat2.mul Mat2.eye).mul
    ((Mat2.smul (1 - alpha) Mat2.eye).add (Mat2.smul alpha (mats.getD pi Mat2.eye)))

/-- `max(1, int(args.duration * args.fps))` (`main`, line 252); `int` on a
float truncates toward zero. -/
def pyTrunc (q : ℚ) : ℤ :=
  if 0 ≤ q then ⌊q⌋ else ⌈q⌉

/-- `total_frames` as computed by `main` from the CLI inputs. -/
def total_frames_main (duration : ℚ) (fps : ℤ) : ℤ :=
  max 1 (pyTrunc (duration * (fps : ℚ)))

/-- Outcome of one tool invocation: exit status and the lines written to the
two standard streams. -/
structure RunResult where
  exitCode : ℕ
  stdoutLines : List String
  stderrLines : List String
  deriving DecidableEq, Repr

/-- The two matplotlib writers `select_writer` can return. -/
inductive AnimWriter where
  | pillow : AnimWriter
  | ffmpeg : AnimWriter
  deriving DecidableEq, Repr

/-- `SVDAnimator.select_writer` (lines 232-241): a `.gif` suffix selects the
Pillow writer; otherwise the FFMpeg writer is constructed, and if that
external dependency is unavailable the constructor's exception is re-raised
as a `RuntimeError` with a fixed message. -/
def select_writer (suffix_is_gif ffmpeg_available : Bool) : Except String AnimWriter :=
  if suffix_is_gif then .ok .pillow
  else if ffmpeg_available then .ok .ffmpeg
  else .error "FFmpeg is required to write video files. Install it or output a GIF."

/-- `main` of `generate_svd_animation.py` (lines 244-262), modelled on its
error-handling control flow: `animator.animate` raises the `RuntimeError`
from `select_writer` or succeeds; the `except RuntimeError` arm prints
`[generate_svd_animation] {error}` via `print` (standard output) and returns
1; the success path prints the saved-path line and returns 0.  Nothing is
ever written to standard error by this function. -/
def generate_main (suffix_is_gif ffmpeg_available : Bool) (output : String) :
    RunResult :=
  match select_writer suffix_is_gif ffmpeg_available with
  | .error e => ⟨1, ["[generate_svd_animation] " ++ e], []⟩
  | .ok _ => ⟨0, ["[generate_svd_animation] Saved animation to " ++ output], []⟩

/-- `decode_animation_bytes` (`svd_animation_asset.py`, lines 15-25).  The
filesystem is a map from paths to optional text contents (`none` = the
`data_path.exists()` check fails); `base64.b85decode` and `lzma.decompress`
are external library calls, taken as parameters.  On a missing file the
function raises `FileNotFoundError` with a message naming the path, before
any read or decode; otherwise it reads the text, splits it on whitespace,
concatenates the tokens, base85-decodes and LZMA-decompresses. -/
def decode_animation_bytes (b85decode : String → List ℕ)
    (lzma_decompress : List ℕ → List ℕ)
    (fs : String → Option String) (data_path : String) :
    Except String (List ℕ) :=
  match fs data_path with
  | none =>
    .error ("Encoded animation data not found at " ++ data_path ++
      ". Regenerate it via tools/generate_svd_animation.py.")
  | some text =>
    .ok (lzma_decompress (b85decode (String.join (text.split Char.isWhitespace))))

/-- `main` of `svd_animation_asset.py` (lines 65-70): decode, write the
bytes, print the `wrote` line, return 0.  It installs no exception handler,
so a `FileNotFoundError` from `decode_animation_bytes` propagates out. -/
def asset_main (b85decode : String → List ℕ)
    (lzma_decompress : List ℕ → List ℕ)
    (fs : String → Option String) (output data : String) :
    Except String (ℕ × List String) :=
  match decode_animation_bytes b85decode lzma_decompress fs data with
  | .error e => .error e
  | .ok _ => .ok (0, ["[svd_animation_asset] wrote " ++ output])

/-- The process-level outcome of running the asset tool
(`raise SystemExit(main())`): per Python interpreter semantics an uncaught
exception prints its message to standard error and the process exits with
status 1; a normal return exits with the returned status. -/
def run_asset_tool (b85decode : String → List ℕ)
    (lzma_decompress : List ℕ → List ℕ)
    (fs : String → Option String) (output data : String) : RunResult :=
  match asset_main b85decode lzma_decompress fs output data with
  | .ok (code, out) => ⟨code, out, []⟩
  | .error e => ⟨1, [], [e]⟩

/-! ## Claim theorems -/

/-- C1: the claim asserts that at the last frame the stepper's output equals
the ordered product of the three phase matrices, and that this product equals
the input matrix `M` itself.  At the concrete SVD instance
`U = [[0,-1],[1,0]]` (a rotation, `U·Uᵀ = I`), `Σ = diag(2,1)`, `Vᵀ = I`,
so `M = U·Σ·Vᵀ = [[0,-1],[2,0]]`, with `total_frames = 3`: the final frame's
output equals the ordered phase product `Vᵀ·Σ·U = [[0,-2],[1,0]]` but differs
from `M` — the stepper composes the phases on the wrong side, so the
animation does not land on the action of `M`. -/
theorem c1_final_frame_phase_product_not_matrix :
    (current_transform (SVDAnimator.init ⟨0, -1, 2, 0⟩ 3 ⟨0, -1, 1, 0⟩ 2 1 Mat2.eye) 2).2.1
        = Mat2.eye.mul ((Mat2.diag 2 1).mul ⟨0, -1, 1, 0⟩)
    ∧ (⟨0, -1, 1, 0⟩ : Mat2).mul (Mat2.transpose ⟨0, -1, 1, 0⟩) = Mat2.eye
    ∧ Mat2.eye.mul (Mat2.transpose Mat2.eye) = Mat2.eye
    ∧ (⟨0, -1, 1, 0⟩ : Mat2).mul ((Mat2.diag 2 1).mul Mat2.eye) = ⟨0, -1, 2, 0⟩
    ∧ (current_transform (SVDAnimator.init ⟨0, -1, 2, 0⟩ 3 ⟨0, -1, 1, 0⟩ 2 1 Mat2.eye) 2).2.1
        ≠ (⟨0, -1, 2, 0⟩ : Mat2) := by
  norm_num [current_transform, SVDAnimator.init, AnimState.phase_index,
    AnimState.alpha, phaseLoop, interpolate, Mat2.mul, Mat2.add, Mat2.smul,
    Mat2.eye, Mat2.diag, Mat2.transpose, Mat2.mk.injEq]

/-- C2: the claim asserts that with `total_frames = 1` the single frame's
output equals the fully composed product of all three phase matrices, i.e.
`M`.  At the concrete SVD instance `U = I`, `Σ = diag(2,1)`,
`Vᵀ = [[0,-1],[1,0]]` (so `M = U·Σ·Vᵀ = [[0,-2],[1,0]]`): the single frame
takes the final-frame override (`alpha = 1`) but `phase_index = 0` breaks the
loop at the first phase, so the output is `Vᵀ` alone — neither the phase
product `Vᵀ·Σ·U` nor `M`. -/
theorem c2_single_frame_first_phase_only :
    (current_transform (SVDAnimator.init ⟨0, -2, 1, 0⟩ 1 Mat2.eye 2 1 ⟨0, -1, 1, 0⟩) 0).2.1
        = (⟨0, -1, 1, 0⟩ : Mat2)
    ∧ Mat2.eye.mul ((Mat2.diag 2 1).mul ⟨0, -1, 1, 0⟩) = ⟨0, -2, 1, 0⟩
    ∧ (current_transform (SVDAnimator.init ⟨0, -2, 1, 0⟩ 1 Mat2.eye 2 1 ⟨0, -1, 1, 0⟩) 0).2.1
        ≠ (⟨0, -1, 1, 0⟩ : Mat2).mul ((Mat2.diag 2 1).mul Mat2.eye)
    ∧ (current_transform (SVDAnimator.init ⟨0, -2, 1, 0⟩ 1 Mat2.eye 2 1 ⟨0, -1, 1, 0⟩) 0).2.1
        ≠ (⟨0, -2, 1, 0⟩ : Mat2) := by
  norm_num [current_transform, SVDAnimator.init, AnimState.phase_index,
    AnimState.alpha, phaseLoop, interpolate, Mat2.mul, Mat2.add, Mat2.smul,
    Mat2.eye, Mat2.diag, Mat2.mk.injEq]

/-- C3 counterexample: with `total_frames = 1` the frame index 0 is also the
final frame, so `alpha` is forced to `1` and the output is `Vᵀ`, not the
identity: the claim "at frame 0 the output is the identity, for every
total_frames ≥ 1" fails at `total_frames = 1`, `Vᵀ = [[0,-1],[1,0]]`. -/
theorem c3_counterexample :
    (current_transform (SVDAnimator.init ⟨0, -2, 1, 0⟩ 1 Mat2.eye 2 1 ⟨0, -1, 1, 0⟩) 0).2.1
      ≠ Mat2.eye := by
  norm_num [current_transform, SVDAnimator.init, AnimState.phase_index,
    AnimState.alpha, phaseLoop, interpolate, Mat2.mul, Mat2.add, Mat2.smul,
    Mat2.eye, Mat2.diag, Mat2.mk.injEq]

/-- C3 (amended): for every `total_frames ≥ 2` and all phase matrices, the
stepper's output at frame index 0 is the 2x2 identity matrix. -/
theorem c3_frame0_identity (m u : Mat2) (s1 s2 : ℚ) (vt : Mat2) (T : ℕ)
    (h : 2 ≤ T) :
    (current_transform (SVDAnimator.init m T u s1 s2 vt) 0).2.1 = Mat2.eye := by
  have h0 : (0 : ℕ) ≠ T - 1 := by omega
  obtain ⟨va, vb, vc, vd⟩ := vt
  norm_num [current_transform, SVDAnimator.init, AnimState.phase_index,
    AnimState.alpha, phaseLoop, interpolate, Mat2.mul, Mat2.add, Mat2.smul,
    Mat2.eye, Mat2.diag, Mat2.mk.injEq, h0]

/-- C3 witness: the amended theorem applied at `total_frames = 2`. -/
theorem c3_frame0_identity_witness :
    2 ≤ 2
    ∧ (current_transform (SVDAnimator.init ⟨2, 1, 1, 3⟩ 2 Mat2.eye 2 1 Mat2.eye) 0).2.1
        = Mat2.eye :=
  ⟨by norm_num, c3_frame0_identity _ _ _ _ _ _ (by norm_num)⟩

/-- C4: for every frame index `f` with `0 ≤ f < total_frames` and all phase
matrices, the stepper computes `phase_index = min(f div F, 2)` and
`alpha = (f mod F) / F` with `F = ceil(total_frames / 3)`, forces `alpha = 1`
exactly on the final frame, and returns the product of the phase matrices
with index below `phase_index` (in increasing index order) right-multiplied
by the blend `(1 - alpha)·I + alpha·P` at `phase_index` — the source stepper
agrees with the specification's formula. -/
theorem c4_stepper_formula (m u : Mat2) (s1 s2 : ℚ) (vt : Mat2) (T f : ℕ)
    (h : f < T) :
    (current_transform (SVDAnimator.init m T u s1 s2 vt) f).2.1
      = specTransform vt (Mat2.diag s1 s2) u T f := by
  have hF : max 1 ((T + 2) / 3) = (T + 2) / 3 := by omega
  have hpi : ∀ k : ℕ, min k 2 = 0 ∨ min k 2 = 1 ∨ min k 2 = 2 := by
    intro k; omega
  rcases hpi (f / ((T + 2) / 3)) with h2 | h2 | h2 <;>
    simp [current_transform, SVDAnimator.init, AnimState.phase_index,
      AnimState.alpha, specTransform, phaseLoop, interpolate, hF, h2]

/-- C4 witness: the formula agreement applied at `total_frames = 7`,
`frame = 3`, with concrete phase matrices. -/
theorem c4_stepper_formula_witness :
    3 < 7
    ∧ (current_transform (SVDAnimator.init ⟨2, 1, 1, 3⟩ 7 ⟨1, 2, 3, 4⟩ 5 6 ⟨7, 8, 9, 10⟩) 3).2.1
        = specTransform ⟨7, 8, 9, 10⟩ (Mat2.diag 5 6) ⟨1, 2, 3, 4⟩ 7 3 :=
  ⟨by norm_num, c4_stepper_formula _ _ _ _ _ _ _ (by norm_num)⟩

/-- C5: for the input matrix `[[2,1],[1,3]]` with `total_frames = 72`
(24 fps × 3 s) and any SVD factors, frame 24 carries `phase_index = 1` and
`alpha = 0`, and the output transform equals exactly `Vᵀ`, with no `Σ` or `U`
contribution. -/
theorem c5_frame24_exactly_vt (u : Mat2) (s1 s2 : ℚ) (vt : Mat2) :
    (SVDAnimator.init ⟨2, 1, 1, 3⟩ 72 u s1 s2 vt).phase_index 24 = 1
    ∧ (SVDAnimator.init ⟨2, 1, 1, 3⟩ 72 u s1 s2 vt).alpha 24 = 0
    ∧ (current_transform (SVDAnimator.init ⟨2, 1, 1, 3⟩ 72 u s1 s2 vt) 24).2.1 = vt := by
  obtain ⟨va, vb, vc, vd⟩ := vt
  norm_num [current_transform, SVDAnimator.init, AnimState.phase_index,
    AnimState.alpha, phaseLoop, interpolate, Mat2.mul, Mat2.add, Mat2.smul,
    Mat2.eye, Mat2.diag, Mat2.mk.injEq]

/-- C7 counterexample: a run that hits the caught `RuntimeError` (non-GIF
output with FFmpeg unavailable) exits with code 1 but writes its diagnostic
line to standard output; the error stream stays empty, contradicting the
claim that the diagnostic goes to the error stream. -/
theorem c7_counterexample :
    (generate_main false false "renders/svd_animation.mp4").exitCode = 1
    ∧ (generate_main false false "renders/svd_animation.mp4").stderrLines = []
    ∧ (generate_main false false "renders/svd_animation.mp4").stdoutLines
        = ["[generate_svd_animation] FFmpeg is required to write video files. Install it or output a GIF."] :=
  ⟨rfl, rfl, rfl⟩

/-- C7 (amended): `main` returns exit code 0 on success and exit code 1 on a
caught runtime error (such as a missing FFmpeg dependency when writing a
non-GIF output), with the diagnostic line printed to standard output; the
error stream is never written. -/
theorem c7_exit_codes (g a : Bool) (p : String) :
    ((generate_main g a p).exitCode = 0
        ∧ (generate_main g a p).stderrLines = []
        ∧ (generate_main g a p).stdoutLines
            = ["[generate_svd_animation] Saved animation to " ++ p])
    ∨ (∃ e, select_writer g a = .error e
        ∧ (generate_main g a p).exitCode = 1
        ∧ (generate_main g a p).stderrLines = []
        ∧ (generate_main g a p).stdoutLines = ["[generate_svd_animation] " ++ e]) := by
  cases g <;> cases a <;> simp [generate_main, select_writer]

/-- C8: when the encoded data file does not exist, `decode_animation_bytes`
raises a file-not-found error whose message names the path (no read or
decode happens), and running the asset tool in that state exits with code 1
after printing that message to the error stream (the uncaught exception path
of the interpreter); the model performs no retry. -/
theorem c8_missing_file (b85 : String → List ℕ) (lz : List ℕ → List ℕ)
    (fs : String → Option String) (out data : String) (h : fs data = none) :
    decode_animation_bytes b85 lz fs data
        = .error ("Encoded animation data not found at " ++ data ++
            ". Regenerate it via tools/generate_svd_animation.py.")
    ∧ (run_asset_tool b85 lz fs out data).exitCode = 1
    ∧ (run_asset_tool b85 lz fs out data).stderrLines
        = ["Encoded animation data not found at " ++ data ++
            ". Regenerate it via tools/generate_svd_animation.py."] := by
  simp [decode_animation_bytes, run_asset_tool, asset_main, h]

/-- C8 witness: the theorem applied to an empty filesystem and the default
data path. -/
theorem c8_missing_file_witness :
    (fun _ : String => (none : Option String)) "_2025/svd/svd_animation.b85" = none
    ∧ decode_animation_bytes (fun _ => []) (fun x => x) (fun _ => none)
        "_2025/svd/svd_animation.b85"
        = .error ("Encoded animation data not found at _2025/svd/svd_animation.b85" ++
            ". Regenerate it via tools/generate_svd_animation.py.")
    ∧ (run_asset_tool (fun _ => []) (fun x => x) (fun _ => none)
        "_2025/svd/svd_animation.gif" "_2025/svd/svd_animation.b85").exitCode = 1
    ∧ (run_asset_tool (fun _ => []) (fun x => x) (fun _ => none)
        "_2025/svd/svd_animation.gif" "_2025/svd/svd_animation.b85").stderrLines
        = ["Encoded animation data not found at _2025/svd/svd_animation.b85" ++
            ". Regenerate it via tools/generate_svd_animation.py."] :=
  ⟨rfl, c8_missing_file (fun _ => []) (fun x => x) (fun _ => none)
    "_2025/svd/svd_animation.gif" "_2025/svd/svd_animation.b85" rfl⟩

/-- C9: `current_transform` mutates no field of the animator — the returned
state is the input state — and consequently the transform computed for a
frame is the same no matter which other frames were computed before it. -/
theorem c9_stepper_pure (s : AnimState) (f : ℕ) (pre : List ℕ) :
    (current_transform s f).1 = s
    ∧ (current_transform (pre.foldl (fun st g => (current_transform st g).1) s) f).2
        = (current_transform s f).2 := by
  have hfold : ∀ (l : List ℕ) (st : AnimState),
      l.foldl (fun st g => (current_transform st g).1) st = st := by
    intro l
    induction l with
    | nil => intro st; rfl
    | cons x xs ih => intro st; exact ih st
  exact ⟨rfl, by rw [hfold]⟩

/-- C10: `main` computes `total_frames = max(1, int(duration · fps)) ≥ 1`
for every CLI duration and fps, the animator computes
`frames_per_phase = max(1, ⌈total_frames / 3⌉) ≥ 1`, and for every frame
index the stepper's `phase_index` stays below the length of the 3-element
phase list, so the division never divides by zero and the list index never
goes out of range. -/
theorem c10_no_out_of_range (dur : ℚ) (fps : ℤ) (m u : Mat2) (s1 s2 : ℚ)
    (vt : Mat2) (T f : ℕ) :
    1 ≤ total_frames_main dur fps
    ∧ 1 ≤ (SVDAnimator.init m T u s1 s2 vt).frames_per_phase
    ∧ (SVDAnimator.init m T u s1 s2 vt).phase_index f
        < (SVDAnimator.init m T u s1 s2 vt).phases.length := by
  refine ⟨le_max_left _ _, le_max_left _ _, ?_⟩
  have h2 : (SVDAnimator.init m T u s1 s2 vt).phase_index f ≤ 2 :=
    min_le_right _ _
  exact lt_of_le_of_lt h2 (by norm_num [SVDAnimator.init])
